import Mathlib

/-!
Verification development for the OCR pipeline script (`app/main.py`).

The script enumerates image files of a folder, runs one of two OCR
backends per file (a remote polling HTTP backend with a local engine as
fallback), and writes a single markdown document.  The definitions below
are a shallow embedding of that script: external effects (directory
listing, HTTP responses, the local engine) are passed in as explicit
data, and every function of the script becomes a pure Lean function.
-/

namespace OCR

/-- Python whitespace trimming on the left, as `str.lstrip()`:
drop leading whitespace characters. -/
def pyLstrip (s : String) : String := ⟨s.data.dropWhile Char.isWhitespace⟩

/-- Python whitespace trimming on the right, as `str.rstrip()` (used at
`main.py:126` on the OCR text): drop trailing whitespace characters. -/
def pyRstrip (s : String) : String :=
  ⟨(s.data.reverse.dropWhile Char.isWhitespace).reverse⟩

/-- Python `str.strip()` (used at `main.py:122`): drop whitespace on both
ends. -/
def pyStrip (s : String) : String := pyLstrip (pyRstrip s)

/-- Python `str.lower()` restricted to its ASCII action (the only part
the extension allow-list can observe), as applied at `main.py:85`. -/
def pyLower (s : String) : String := ⟨s.data.map Char.toLower⟩

/-- Lexicographic comparison of character lists by code point, the order
Python uses to compare strings (and, within a single directory, paths):
`lexLe a b = true` iff `a ≤ b`. -/
def lexLe : List Char → List Char → Bool
  | [], _ => true
  | _ :: _, [] => false
  | a :: as, b :: bs =>
    if a.toNat = b.toNat then lexLe as bs
    else decide (a.toNat < b.toNat)

/-- The ordering `sorted` applies at `main.py:85`, as a relation on
names. -/
def sortRel (a b : String) : Prop := lexLe a.data b.data = true

instance : DecidableRel sortRel := fun a b =>
  inferInstanceAs (Decidable (lexLe a.data b.data = true))

/-- `pathlib.Path.suffix` of a file name: the final extension including
its dot, empty when the name has no dot, starts with its only dot, or
ends with the dot (CPython: `name[i:]` when `0 < i < len(name) - 1` for
`i = name.rfind('.')`, else `""`). -/
def pathSuffix (name : String) : String :=
  let cs := name.data
  let ext := cs.reverse.takeWhile (fun c => c ≠ '.')
  if 0 < ext.length ∧ ext.length + 1 < cs.length then
    ⟨'.' :: ext.reverse⟩
  else
    ""

/-- The extension allow-list of `main.py:83`. -/
def IMAGE_EXTS : List String := [".png", ".jpg", ".jpeg", ".tiff", ".bmp", ".gif"]

/-- A directory entry as returned by `Path.iterdir()`: its name, and
whether it is a regular file (the script never inspects the latter). -/
structure DirEntry where
  name : String
  isFile : Bool
deriving DecidableEq, Repr

/-- The filter applied to each directory entry at `main.py:85`:
`p.suffix.lower() in IMAGE_EXTS`.  It reads only the entry's name. -/
def includedEntry (e : DirEntry) : Bool :=
  IMAGE_EXTS.contains (pyLower (pathSuffix e.name))

/-- `main.py:85`: the sorted list of matching file names,
`sorted([p for p in IMAGE_FOLDER.iterdir() if p.suffix.lower() in IMAGE_EXTS])`.
Within a single directory, `sorted` on paths orders by name. -/
def listFiles (es : List DirEntry) : List String :=
  List.insertionSort sortRel ((es.filter includedEntry).map DirEntry.name)

/-- The initial `requests.post` response of `azure_read_image`
(`main.py:54`): HTTP status code, body text, and the optional
`Operation-Location` header. -/
structure PostResponse where
  status_code : Nat
  text : String
  operationLocation : Option String

/-- One poll of the operation endpoint (`main.py:65`–`66`): either the
GET or its `.json()` raises an exception (network error, non-JSON body),
or it yields a parsed payload with optional `status` field, its printed
form `payload` (Python `str(rj)`), and the texts of
`analyzeResult.readResults[].lines[]` grouped by page. -/
inductive PollResponse where
  | exn (msg : String)
  | json (status : Option String) (payload : String) (readResults : List (List String))

/-- Whether a poll raised an exception rather than returning JSON. -/
def PollResponse.isExn : PollResponse → Bool
  | .exn _ => true
  | .json _ _ _ => false

/-- The exceptions `azure_read_image` can terminate with: the
non-accepted submission error (`main.py:57`), the missing header error
(`main.py:61`), the explicit failure error (`main.py:76`), the timeout
(`main.py:79`), and any exception propagating out of a poll
(`main.py:65`–`66`). -/
inductive AzureError where
  | badStatus (code : Nat) (body : String)
  | missingOperationLocation
  | readFailed (payload : String)
  | timeout
  | pollExn (msg : String)
deriving DecidableEq, Repr

/-- Python `str(e)` of each exception, as interpolated into the page's
error text by `main.py:107`/`109`. -/
def AzureError.message : AzureError → String
  | .badStatus code body => "Azure Read API error: " ++ toString code ++ " " ++ body
  | .missingOperationLocation => "Missing Operation-Location header from Azure response"
  | .readFailed payload => "Azure Read failed: " ++ payload
  | .timeout => "Timed out waiting for Azure Read result"
  | .pollExn msg => msg

/-- The poll loop of `main.py:63`–`79`.  `polls` is the sequence of
responses received before the wall-clock deadline; an exhausted list
means the deadline passed without a further poll, raising
`TimeoutError`.  A `succeeded` status returns the line texts of all
pages joined by newline; a `failed` status raises with the payload; any
other status continues to the next poll. -/
def pollLoop : List PollResponse → Except AzureError String
  | [] => .error .timeout
  | .exn m :: _ => .error (.pollExn m)
  | .json status payload readResults :: rest =>
    if status = some "succeeded" then
      .ok (String.intercalate "\n" readResults.flatten)
    else if status = some "failed" then
      .error (.readFailed payload)
    else
      pollLoop rest

/-- `azure_read_image` (`main.py:51`–`79`): check the submission was
accepted (202) and carries an `Operation-Location` header, then poll. -/
def azure_read_image (post : PostResponse) (polls : List PollResponse) :
    Except AzureError String :=
  if post.status_code ≠ 202 then
    .error (.badStatus post.status_code post.text)
  else
    match post.operationLocation with
    | none => .error .missingOperationLocation
    | some _ => pollLoop polls

/-- The fixed notice of `main.py:118`. -/
def noBackendNotice : String :=
  "_No OCR backend available. Set AZURE_OCR_* or install pytesseract and Tesseract executable._"

/-- The per-file dispatch/fallback of `main.py:95`–`118`.  `readApi`
models `READ_API` being set (endpoint and key configured), `azure` the
outcome of `azure_read_image`, `pytess` the `pytesseract` import having
succeeded, and `localR` the outcome of
`pytesseract.image_to_string(Image.open(path))` (an error string when
either raised). -/
def dispatch (readApi : Bool) (azure : Except AzureError String)
    (pytess : Bool) (localR : Except String String) : String :=
  if readApi then
    match azure with
    | .ok t => t
    | .error eAzure =>
      if pytess then
        match localR with
        | .ok t => t
        | .error eTess =>
          "_Error during OCR: Azure error: " ++ eAzure.message ++
            "; Tesseract error: " ++ eTess ++ "_"
      else
        "_Error during OCR: Azure error: " ++ eAzure.message ++ "_"
  else
    if pytess then
      match localR with
      | .ok t => t
      | .error e => "_Tesseract error: " ++ e ++ "_"
    else
      noBackendNotice

/-- The whole external environment of one run: configuration flags, the
directory listing (`.error` when `iterdir` raises), the relative-path
computation of `main.py:91`, the per-file remote responses, the per-file
local engine outcome, and the printed output path. -/
structure Env where
  readApi : Bool
  pytess : Bool
  entries : Except String (List DirEntry)
  relOf : String → String
  post : String → PostResponse
  polls : String → List PollResponse
  localOf : String → Except String String
  outPath : String

/-- The OCR text assigned to one file by the dispatch of
`main.py:95`–`118`, with the remote attempt evaluated by
`azure_read_image` on that file's responses. -/
def pageText (env : Env) (n : String) : String :=
  dispatch env.readApi (azure_read_image (env.post n) (env.polls n))
    env.pytess (env.localOf n)

/-- The heading appended at `main.py:92` (the separator reproduces the
source literal byte-for-byte). -/
def pageHeading (idx : Nat) (name : String) : String :=
  "## Page " ++ toString idx ++ " â€” " ++ name ++ "\n"

/-- The `md_lines` entries appended for one page
(`main.py:92`–`93` and `122`–`127`): heading, image reference, then
either the fixed notice or a fenced code block of the right-trimmed
text. -/
def pageSection (idx : Nat) (name rel text : String) : List String :=
  pageHeading idx name ::
  ("![" ++ name ++ "](" ++ rel ++ ")\n") ::
  (if pyStrip text = "" then
    ["_No text recognized._\n"]
  else
    ["```text", pyRstrip text, "```\n"])

/-- The per-page groups of `md_lines` entries, in loop order
(`main.py:90`, `enumerate(files, start=1)`). -/
def sections (env : Env) (es : List DirEntry) : List (List String) :=
  (listFiles es).enum.map
    (fun p => pageSection (p.1 + 1) p.2 (env.relOf p.2) (pageText env p.2))

/-- The full `md_lines` list: the document header of `main.py:88`
followed by every page's entries. -/
def mdLines (env : Env) (es : List DirEntry) : List String :=
  "# OCR Output\n" :: (sections env es).flatten

/-- The document written by `main.py:129`:
`"\n".join(md_lines)`. -/
def outputDoc (env : Env) (es : List DirEntry) : String :=
  String.intercalate "\n" (mdLines env es)

/-- An externally observable effect of the run. -/
inductive Effect where
  | fsWrite (content : String)
  | consolePrint (line : String)
deriving DecidableEq

/-- Whether an effect is a file write. -/
def Effect.isWrite : Effect → Bool
  | .fsWrite _ => true
  | .consolePrint _ => false

/-- The effect trace of `main()`: nothing if the enumeration of
`main.py:85` raises (the exception propagates, aborting the run), else
the single `write_text` of `main.py:129` followed by the summary print
of `main.py:130`. -/
def runEffects (env : Env) : List Effect :=
  match env.entries with
  | .error _ => []
  | .ok es =>
    [Effect.fsWrite (outputDoc env es),
     Effect.consolePrint ("Wrote " ++ toString (listFiles es).length ++
       " pages to " ++ env.outPath)]

/-- Whether a poll response is parsed JSON whose status is neither
terminal value, so the loop keeps polling. -/
def PollResponse.isPending : PollResponse → Bool
  | .exn _ => false
  | .json s _ _ => decide (s ≠ some "succeeded") && decide (s ≠ some "failed")

/-- The three terminal outcomes §4.2 of the spec enumerates for the poll
loop: text on `succeeded`, a failure carrying the payload on `failed`,
or the timeout error. -/
def isThreeWay (r : Except AzureError String) : Prop :=
  (∃ s, r = .ok s) ∨ (∃ p, r = .error (.readFailed p)) ∨
    r = .error .timeout

/-- A concrete environment whose only remote attempt times out (an
accepted submission, then no poll before the deadline) with no local
engine installed. -/
def envTimeout : Env :=
  ⟨true, false, .ok [⟨"a.png", true⟩], fun n => n,
   fun _ => ⟨202, "", some "u"⟩, fun _ => [],
   fun _ => Except.error "t", "out.md"⟩

/-- A concrete environment whose directory enumeration raises. -/
def envAbort : Env :=
  ⟨true, false, .error "boom", fun n => n,
   fun _ => ⟨202, "", some "u"⟩, fun _ => [],
   fun _ => Except.error "t", "out.md"⟩

/-- A concrete unconfigured environment over one file. -/
def envA : Env :=
  ⟨false, false, .ok [⟨"a.png", true⟩], fun n => n,
   fun _ => ⟨202, "", some "u"⟩, fun _ => [],
   fun _ => Except.error "t", "out.md"⟩

/-- `envA` with the local engine behaving differently on a file the
folder does not contain. -/
def envB : Env :=
  ⟨false, false, .ok [⟨"a.png", true⟩], fun n => n,
   fun _ => ⟨202, "", some "u"⟩, fun _ => [],
   fun n => if n = "a.png" then Except.error "t" else Except.ok "other",
   "out.md"⟩

/-- A concrete environment whose folder holds a subdirectory named
`x.png`: both backends fail on it (the remote POST is rejected, the
local engine cannot open a directory). -/
def envDir : Env :=
  ⟨true, true, .ok [⟨"x.png", false⟩], fun n => n,
   fun _ => ⟨404, "nf", some "u"⟩, fun _ => [],
   fun _ => Except.error "Is a directory", "out.md"⟩

/-! ### General lemmas about the embedding's building blocks -/

theorem lexLe_total : ∀ a b, lexLe a b = true ∨ lexLe b a = true := by
  intro a
  induction a with
  | nil => intro b; left; simp [lexLe]
  | cons x xs ih =>
    intro b
    cases b with
    | nil => right; simp [lexLe]
    | cons y ys =>
      simp only [lexLe]
      by_cases h : x.toNat = y.toNat
      · rw [if_pos h, if_pos h.symm]
        exact ih ys
      · rw [if_neg h, if_neg (fun hh => h hh.symm)]
        rcases Nat.lt_or_ge x.toNat y.toNat with hlt | hge
        · left; exact decide_eq_true hlt
        · right
          exact decide_eq_true (Nat.lt_of_le_of_ne hge (fun hh => h hh.symm))

theorem lexLe_trans :
    ∀ a b c, lexLe a b = true → lexLe b c = true → lexLe a c = true := by
  intro a
  induction a with
  | nil => intro b c _ _; simp [lexLe]
  | cons x xs ih =>
    intro b c h1 h2
    cases b with
    | nil => simp [lexLe] at h1
    | cons y ys =>
      cases c with
      | nil => simp [lexLe] at h2
      | cons z zs =>
        simp only [lexLe] at h1 h2 ⊢
        by_cases hxy : x.toNat = y.toNat
        · rw [if_pos hxy] at h1
          by_cases hyz : y.toNat = z.toNat
          · rw [if_pos hyz] at h2
            rw [if_pos (hxy.trans hyz)]
            exact ih ys zs h1 h2
          · rw [if_neg hyz] at h2
            have hy : y.toNat < z.toNat := of_decide_eq_true h2
            rw [if_neg (by omega)]
            exact decide_eq_true (by omega)
        · rw [if_neg hxy] at h1
          have hx : x.toNat < y.toNat := of_decide_eq_true h1
          by_cases hyz : y.toNat = z.toNat
          · rw [if_pos hyz] at h2
            rw [if_neg (by omega)]
            exact decide_eq_true (by omega)
          · rw [if_neg hyz] at h2
            have hy : y.toNat < z.toNat := of_decide_eq_true h2
            rw [if_neg (by omega)]
            exact decide_eq_true (by omega)

instance : IsTotal String sortRel := ⟨fun a b => lexLe_total a.data b.data⟩

instance : IsTrans String sortRel :=
  ⟨fun a b c => lexLe_trans a.data b.data c.data⟩

theorem enumFrom_map_shift {α β : Type _} (f : Nat → α → β) :
    ∀ (l : List α) (n : Nat),
      (List.enumFrom n l).map (fun p => f (p.1 + 1) p.2) =
        ((List.range' (n + 1) l.length).zip l).map (fun p => f p.1 p.2) := by
  intro l
  induction l with
  | nil => intro n; simp
  | cons x xs ih =>
    intro n
    simp only [List.enumFrom, List.map_cons, List.length_cons, List.range',
      List.zip_cons_cons]
    exact congrArg _ (ih (n + 1))

theorem pollLoop_pending_append (pre rest : List PollResponse)
    (hpre : ∀ p ∈ pre, p.isPending = true) :
    pollLoop (pre ++ rest) = pollLoop rest := by
  induction pre with
  | nil => rfl
  | cons p ps ih =>
    have hp := hpre p (List.mem_cons_self p ps)
    cases p with
    | exn m => simp [PollResponse.isPending] at hp
    | json s pay pages =>
      simp only [PollResponse.isPending, Bool.and_eq_true, decide_eq_true_eq] at hp
      simp only [List.cons_append, pollLoop, if_neg hp.1, if_neg hp.2]
      exact ih (fun q hq => hpre q (List.mem_cons_of_mem _ hq))

theorem pyLstrip_empty : pyLstrip "" = "" := rfl

theorem pyRstrip_ne_empty_of_pyStrip {s : String} (h : pyStrip s ≠ "") :
    pyRstrip s ≠ "" := by
  intro hr
  exact h (by rw [pyStrip, hr, pyLstrip_empty])

theorem pyRstrip_append_whitespace (s : String) :
    ∃ t : String, s = pyRstrip s ++ t ∧ t.data.all Char.isWhitespace = true := by
  cases s with
  | mk l =>
    refine ⟨⟨(l.reverse.takeWhile Char.isWhitespace).reverse⟩, ?_, ?_⟩
    · show String.mk l =
        String.mk ((l.reverse.dropWhile Char.isWhitespace).reverse ++
          (l.reverse.takeWhile Char.isWhitespace).reverse)
      rw [← List.reverse_append, List.takeWhile_append_dropWhile, List.reverse_reverse]
    · simp only [List.all_eq_true, List.mem_reverse]
      exact fun c hc => List.mem_takeWhile_imp hc

/-! ### Claim theorems -/

/-- Claim C1: the per-file OCR dispatch follows the decision table of
`main.py:95`–`118`: remote configured and succeeding gives the remote
text; remote failing with local available and succeeding gives the local
text (not an error); both failing gives a combined error naming both
failures; remote failing with no local backend gives an error naming
only the remote failure; remote unconfigured attempts the local backend
when available (its failure becoming an error naming the local failure),
and with neither backend the text is the fixed notice.  The final
conjunct ties the table to the text assigned to each page. -/
theorem C1_dispatch_table :
    (∀ t p l, dispatch true (.ok t) p l = t) ∧
    (∀ e t, dispatch true (.error e) true (.ok t) = t) ∧
    (∀ e et, dispatch true (.error e) true (.error et) =
      "_Error during OCR: Azure error: " ++ e.message ++
        "; Tesseract error: " ++ et ++ "_") ∧
    (∀ e l, dispatch true (.error e) false l =
      "_Error during OCR: Azure error: " ++ e.message ++ "_") ∧
    (∀ a t, dispatch false a true (.ok t) = t) ∧
    (∀ a et, dispatch false a true (.error et) =
      "_Tesseract error: " ++ et ++ "_") ∧
    (∀ a l, dispatch false a false l = noBackendNotice) ∧
    (∀ env n, pageText env n =
      dispatch env.readApi (azure_read_image (env.post n) (env.polls n))
        env.pytess (env.localOf n)) :=
  ⟨fun _ _ _ => rfl, fun _ _ => rfl, fun _ _ => rfl, fun _ _ => rfl,
   fun _ _ => rfl, fun _ _ => rfl, fun _ _ => rfl, fun _ _ => rfl⟩

/-- Claim C2: for a folder whose listing matches N image files, the
document is the header followed by exactly N page sections; the heading
of the k-th section (k = 1..N) carries index k and the k-th name of the
lexicographically sorted matching names, which are a permutation of the
matching entries — so numbering is dense, 1..N, with no two pages
sharing a number. -/
theorem C2_dense_numbering (env : Env) (es : List DirEntry) :
    mdLines env es = "# OCR Output\n" :: (sections env es).flatten ∧
    (sections env es).length =
      ((es.filter includedEntry).map DirEntry.name).length ∧
    (sections env es).map (fun s => s.head?) =
      ((List.range' 1 (listFiles es).length).zip (listFiles es)).map
        (fun p => some (pageHeading p.1 p.2)) ∧
    List.Sorted sortRel (listFiles es) ∧
    (listFiles es).Perm ((es.filter includedEntry).map DirEntry.name) := by
  have hperm : (listFiles es).Perm
      ((es.filter includedEntry).map DirEntry.name) :=
    List.perm_insertionSort sortRel _
  refine ⟨rfl, ?_, ?_, List.sorted_insertionSort sortRel _, hperm⟩
  · rw [sections, List.length_map, List.enum_length]
    exact hperm.length_eq
  · calc (sections env es).map (fun s => s.head?)
        = (listFiles es).enum.map
            (fun p => some (pageHeading (p.1 + 1) p.2)) := by
          rw [sections, List.map_map]; rfl
      _ = _ := enumFrom_map_shift (fun i n => some (pageHeading i n))
            (listFiles es) 0

/-- Claim C3: a poll whose status is `succeeded` makes the remote
backend return the line texts of all pages, in service order, joined by
newline; any earlier polls with a non-terminal status are skipped over. -/
theorem C3_succeeded_joins_lines (post : PostResponse)
    (pre : List PollResponse) (pay : String) (pages : List (List String))
    (h202 : post.status_code = 202) (hloc : post.operationLocation ≠ none)
    (hpre : ∀ p ∈ pre, p.isPending = true) :
    azure_read_image post
        (pre ++ [PollResponse.json (some "succeeded") pay pages]) =
      .ok (String.intercalate "\n" pages.flatten) := by
  rw [azure_read_image, if_neg (by omega)]
  cases hOp : post.operationLocation with
  | none => exact absurd hOp hloc
  | some u =>
    rw [pollLoop_pending_append _ _ hpre]
    rfl

/-- Witness for C3 at the spec's own example: a single `succeeded` poll
with lines `["A", "B"]` on one page yields `"A\nB"`. -/
theorem C3_witness :
    azure_read_image ⟨202, "", some "u"⟩
        [PollResponse.json (some "succeeded") "p" [["A", "B"]]] =
      Except.ok "A\nB" := by
  simpa using C3_succeeded_joins_lines ⟨202, "", some "u"⟩ [] "p" [["A", "B"]]
    rfl (by simp) (by simp)

/-- Claim C4: the markdown writer emits the fixed notice exactly when
the page's OCR text is empty or whitespace-only, and otherwise a fenced
code block holding the text with trailing whitespace removed and leading
whitespace preserved (the text splits as the emitted block followed by
whitespace only); the emitted block is never empty. -/
theorem C4_notice_iff_blank (idx : Nat) (name rel text : String) :
    (pyStrip text = "" →
      pageSection idx name rel text =
        [pageHeading idx name, "![" ++ name ++ "](" ++ rel ++ ")\n",
         "_No text recognized._\n"]) ∧
    (pyStrip text ≠ "" →
      pageSection idx name rel text =
        [pageHeading idx name, "![" ++ name ++ "](" ++ rel ++ ")\n",
         "```text", pyRstrip text, "```\n"] ∧
      pyRstrip text ≠ "" ∧
      ∃ t : String, text = pyRstrip text ++ t ∧
        t.data.all Char.isWhitespace = true) := by
  constructor
  · intro h
    rw [pageSection, if_pos h]
  · intro h
    exact ⟨by rw [pageSection, if_neg h],
      pyRstrip_ne_empty_of_pyStrip h, pyRstrip_append_whitespace text⟩

/-- Witness for C4: a trailing-blank text keeps its body in a code
block, and a whitespace-only text produces the notice. -/
theorem C4_witness :
    pyStrip "hi " ≠ "" ∧
    (pageSection 1 "a.png" "r" "hi " =
      [pageHeading 1 "a.png", "![a.png](r)\n", "```text", pyRstrip "hi ",
       "```\n"] ∧
     pyRstrip "hi " ≠ "" ∧
     ∃ t : String, "hi " = pyRstrip "hi " ++ t ∧
       t.data.all Char.isWhitespace = true) ∧
    pyStrip " \n" = "" ∧
    pageSection 2 "b.png" "r" " \n" =
      [pageHeading 2 "b.png", "![b.png](r)\n", "_No text recognized._\n"] :=
  ⟨by decide, (C4_notice_iff_blank 1 "a.png" "r" "hi ").2 (by decide),
   by decide, (C4_notice_iff_blank 2 "b.png" "r" " \n").1 (by decide)⟩

/-- Counterexample to claim C5 as stated: a poll whose body fails to
parse as JSON makes `azure_read_image` terminate by propagating that
exception — a fourth way, none of the three the claim enumerates. -/
theorem C5_counterexample :
    ¬ isThreeWay (azure_read_image ⟨202, "", some "u"⟩
        [PollResponse.exn "invalid json body"]) := by
  intro h
  have he : azure_read_image ⟨202, "", some "u"⟩
      [PollResponse.exn "invalid json body"] =
      .error (.pollExn "invalid json body") := rfl
  rw [he] at h
  simp [isThreeWay] at h

/-- Claim C5 as amended: provided no poll raises (every response parses
as JSON), the poll loop terminates in exactly one of the three
enumerated ways; with pending statuses before it, a `failed` status
fails carrying the payload; only pending statuses before the deadline
give the timeout error; and a timed-out remote attempt with no local
engine puts an error message with a timeout indication in the page's
section. -/
theorem C5_amended_trichotomy :
    (∀ polls : List PollResponse, (∀ p ∈ polls, p.isExn = false) →
      isThreeWay (pollLoop polls)) ∧
    (∀ (pre rest : List PollResponse) (pay : String)
        (pages : List (List String)),
      (∀ p ∈ pre, p.isPending = true) →
      pollLoop (pre ++ PollResponse.json (some "failed") pay pages :: rest)
        = .error (.readFailed pay)) ∧
    (∀ polls : List PollResponse, (∀ p ∈ polls, p.isPending = true) →
      pollLoop polls = .error .timeout) ∧
    (∀ (env : Env) n, env.readApi = true → env.pytess = false →
      azure_read_image (env.post n) (env.polls n) = .error .timeout →
      pageText env n =
        "_Error during OCR: Azure error: Timed out waiting for Azure Read result_"
        ∧ List.IsInfix ("Timed out").data (pageText env n).data) := by
  refine ⟨?_, ?_, ?_, ?_⟩
  · intro polls h
    induction polls with
    | nil => exact Or.inr (Or.inr rfl)
    | cons p ps ih =>
      have hp := h p (List.mem_cons_self p ps)
      cases p with
      | exn m => simp [PollResponse.isExn] at hp
      | json s pay pages =>
        simp only [pollLoop]
        by_cases hs : s = some "succeeded"
        · rw [if_pos hs]
          exact Or.inl ⟨_, rfl⟩
        · rw [if_neg hs]
          by_cases hf : s = some "failed"
          · rw [if_pos hf]
            exact Or.inr (Or.inl ⟨pay, rfl⟩)
          · rw [if_neg hf]
            exact ih (fun q hq => h q (List.mem_cons_of_mem _ hq))
  · intro pre rest pay pages hpre
    rw [pollLoop_pending_append _ _ hpre]
    rfl
  · intro polls h
    rw [← List.append_nil polls, pollLoop_pending_append _ _ h]
    rfl
  · intro env n hR hP hAz
    have h1 : pageText env n =
        "_Error during OCR: Azure error: Timed out waiting for Azure Read result_" := by
      rw [pageText, hR, hP, hAz]
      rfl
    exact ⟨h1, by rw [h1]; decide⟩

/-- Witness for C5: a pending poll gives one of the three outcomes (the
timeout), an immediate `failed` poll carries its payload, and in
`envTimeout` the page text is the timeout error message. -/
theorem C5_witness :
    isThreeWay (pollLoop [PollResponse.json none "p" []]) ∧
    pollLoop ([] ++ PollResponse.json (some "failed") "pay" [] :: []) =
      Except.error (.readFailed "pay") ∧
    pollLoop [PollResponse.json none "p" []] =
      Except.error AzureError.timeout ∧
    pageText envTimeout "a.png" =
      "_Error during OCR: Azure error: Timed out waiting for Azure Read result_"
      ∧ List.IsInfix ("Timed out").data (pageText envTimeout "a.png").data :=
  ⟨C5_amended_trichotomy.1 _ (by decide),
   C5_amended_trichotomy.2.1 [] [] "pay" [] (by simp),
   C5_amended_trichotomy.2.2.1 _ (by decide),
   (C5_amended_trichotomy.2.2.2 envTimeout "a.png" rfl rfl rfl).1,
   (C5_amended_trichotomy.2.2.2 envTimeout "a.png" rfl rfl rfl).2⟩

/-- Claim C6: a submission whose POST is not answered with status 202
fails immediately with an error carrying the status code and body; an
accepted response without an `Operation-Location` header fails
immediately, without polling (the result does not depend on the poll
responses at all). -/
theorem C6_submission_failures :
    (∀ post polls, post.status_code ≠ 202 →
      azure_read_image post polls =
        .error (.badStatus post.status_code post.text) ∧
      (AzureError.badStatus post.status_code post.text).message =
        "Azure Read API error: " ++ toString post.status_code ++ " " ++
          post.text) ∧
    (∀ post polls polls', post.status_code = 202 →
      post.operationLocation = none →
      azure_read_image post polls = .error .missingOperationLocation ∧
      azure_read_image post polls = azure_read_image post polls') := by
  constructor
  · intro post polls h
    exact ⟨by rw [azure_read_image, if_pos h], rfl⟩
  · intro post polls polls' h202 hloc
    have hthis : ∀ ps : List PollResponse,
        azure_read_image post ps = .error .missingOperationLocation := by
      intro ps
      rw [azure_read_image, if_neg (by omega), hloc]
    exact ⟨hthis polls, (hthis polls).trans (hthis polls').symm⟩

/-- Witness for C6: a 404 submission fails with code and body in the
error, and an accepted response lacking the header fails identically
under two different poll scripts. -/
theorem C6_witness :
    azure_read_image ⟨404, "nf", some "u"⟩ [] =
      Except.error (.badStatus 404 "nf") ∧
    (AzureError.badStatus 404 "nf").message =
      "Azure Read API error: 404 nf" ∧
    azure_read_image ⟨202, "", none⟩ [] =
      Except.error AzureError.missingOperationLocation ∧
    azure_read_image ⟨202, "", none⟩ [] =
      azure_read_image ⟨202, "", none⟩
        [PollResponse.json (some "succeeded") "p" [["A"]]] :=
  ⟨(C6_submission_failures.1 ⟨404, "nf", some "u"⟩ [] (by decide)).1,
   by simpa using
     (C6_submission_failures.1 ⟨404, "nf", some "u"⟩ [] (by decide)).2,
   (C6_submission_failures.2 ⟨202, "", none⟩ []
     [PollResponse.json (some "succeeded") "p" [["A"]]] rfl rfl).1,
   (C6_submission_failures.2 ⟨202, "", none⟩ []
     [PollResponse.json (some "succeeded") "p" [["A"]]] rfl rfl).2⟩

/-- Claim C7: the run's effect trace holds exactly one file write — of
the whole accumulated document, after all pages — when enumeration
succeeds, and no write at all when enumeration fails: an aborted run
leaves no partial output. -/
theorem C7_single_complete_write (env : Env) :
    (∀ e, env.entries = .error e → runEffects env = []) ∧
    (∀ es, env.entries = .ok es →
      runEffects env =
        [Effect.fsWrite (outputDoc env es),
         Effect.consolePrint ("Wrote " ++ toString (listFiles es).length ++
           " pages to " ++ env.outPath)]) ∧
    ((runEffects env).filter Effect.isWrite).length ≤ 1 ∧
    (∀ e, env.entries = .error e →
      (runEffects env).filter Effect.isWrite = []) := by
  refine ⟨?_, ?_, ?_, ?_⟩
  · intro e h; simp [runEffects, h]
  · intro es h; simp [runEffects, h]
  · rcases h : env.entries with e | es <;>
      simp [runEffects, h, Effect.isWrite]
  · intro e h; simp [runEffects, h]

/-- Witness for C7: the enumeration failure of `envAbort` produces no
effect (in particular no write), while `envTimeout` produces the single
full write followed by the summary print. -/
theorem C7_witness :
    runEffects envAbort = [] ∧
    (runEffects envAbort).filter Effect.isWrite = [] ∧
    runEffects envTimeout =
      [Effect.fsWrite (outputDoc envTimeout [⟨"a.png", true⟩]),
       Effect.consolePrint ("Wrote " ++
         toString (listFiles [(⟨"a.png", true⟩ : DirEntry)]).length ++
         " pages to " ++ envTimeout.outPath)] :=
  ⟨(C7_single_complete_write envAbort).1 "boom" rfl,
   (C7_single_complete_write envAbort).2.2.2 "boom" rfl,
   (C7_single_complete_write envTimeout).2.1 [⟨"a.png", true⟩] rfl⟩

/-- Claim C8: the pipeline is deterministic in its inputs — two runs
agreeing on the configuration flags, the folder contents, and the
backend responses for every listed file produce an identical document,
and (with equal output paths) identical effect traces. -/
theorem C8_deterministic (a b : Env) (es : List DirEntry)
    (hr : a.readApi = b.readApi) (hp : a.pytess = b.pytess)
    (hrel : ∀ n ∈ listFiles es, a.relOf n = b.relOf n)
    (hpost : ∀ n ∈ listFiles es, a.post n = b.post n)
    (hpolls : ∀ n ∈ listFiles es, a.polls n = b.polls n)
    (hlocal : ∀ n ∈ listFiles es, a.localOf n = b.localOf n) :
    outputDoc a es = outputDoc b es ∧
    (a.entries = .ok es → b.entries = .ok es → a.outPath = b.outPath →
      runEffects a = runEffects b) := by
  have hsec : sections a es = sections b es := by
    rw [sections, sections]
    apply List.map_congr_left
    intro p hpmem
    have hmem : p.2 ∈ listFiles es := by
      rw [← List.enum_map_snd (listFiles es)]
      exact List.mem_map_of_mem Prod.snd hpmem
    have htext : pageText a p.2 = pageText b p.2 := by
      rw [pageText, pageText, hr, hp, hpost p.2 hmem, hpolls p.2 hmem,
        hlocal p.2 hmem]
    rw [htext, hrel p.2 hmem]
  have hdoc : outputDoc a es = outputDoc b es := by
    rw [outputDoc, outputDoc, mdLines, mdLines, hsec]
  refine ⟨hdoc, ?_⟩
  intro ha hb hout
  simp only [runEffects, ha, hb]
  rw [hdoc, hout]

/-- Witness for C8: `envA` and `envB` agree on everything a run of
their shared folder observes (they differ only on a file the folder
does not contain) and produce identical outputs. -/
theorem C8_witness :
    outputDoc envA [⟨"a.png", true⟩] = outputDoc envB [⟨"a.png", true⟩] ∧
    runEffects envA = runEffects envB := by
  have hfs : listFiles [(⟨"a.png", true⟩ : DirEntry)] = ["a.png"] := by
    decide
  have hloc : ∀ n ∈ listFiles [(⟨"a.png", true⟩ : DirEntry)],
      envA.localOf n = envB.localOf n := by
    intro n hn
    rw [hfs] at hn
    have hn' : n = "a.png" := by simpa using hn
    subst hn'
    rfl
  have h := C8_deterministic envA envB [⟨"a.png", true⟩] rfl rfl
    (fun n _ => rfl) (fun n _ => rfl) (fun n _ => rfl) hloc
  exact ⟨h.1, h.2 rfl rfl rfl⟩

/-- Claim C9: every exception of the remote attempt — each
`AzureError`, including the poll exceptions that model network errors
and non-JSON poll bodies — is caught by the per-file handler and routed
into the one fallback expression, which depends on the exception only
through its message; a poll exception surfaces as `pollExn`; and a run
whose enumeration succeeded always reaches the final write, so no
remote exception aborts it. -/
theorem C9_exception_fallback :
    (∀ (e : AzureError) (p : Bool) (l : Except String String),
      dispatch true (.error e) p l =
        if p then
          (match l with
           | .ok t => t
           | .error et =>
             "_Error during OCR: Azure error: " ++ e.message ++
               "; Tesseract error: " ++ et ++ "_")
        else "_Error during OCR: Azure error: " ++ e.message ++ "_") ∧
    (∀ e₁ e₂ p l, e₁.message = e₂.message →
      dispatch true (.error e₁) p l = dispatch true (.error e₂) p l) ∧
    (∀ (post : PostResponse) (m : String) (rest : List PollResponse),
      post.status_code = 202 → post.operationLocation ≠ none →
      azure_read_image post (PollResponse.exn m :: rest) =
        .error (.pollExn m)) ∧
    (∀ (env : Env) es, env.entries = .ok es →
      ∃ c r, runEffects env = Effect.fsWrite c :: r) := by
  refine ⟨?_, ?_, ?_, ?_⟩
  · intro e p l
    cases p <;> cases l <;> rfl
  · intro e₁ e₂ p l h
    cases p <;> cases l <;> simp [dispatch, h]
  · intro post m rest h202 hloc
    rw [azure_read_image, if_neg (by omega)]
    cases hOp : post.operationLocation with
    | none => exact absurd hOp hloc
    | some u => rfl
  · intro env es h
    exact ⟨outputDoc env es,
      [Effect.consolePrint ("Wrote " ++ toString (listFiles es).length ++
        " pages to " ++ env.outPath)], by simp [runEffects, h]⟩

/-- Witness for C9: a poll exception with the timeout's message is
handled exactly like the timeout; a non-JSON poll body surfaces as a
`pollExn`; and `envTimeout`'s run still writes its document. -/
theorem C9_witness :
    dispatch true
        (.error (.pollExn "Timed out waiting for Azure Read result"))
        true (.error "t") =
      dispatch true (.error AzureError.timeout) true (.error "t") ∧
    azure_read_image ⟨202, "", some "u"⟩ [PollResponse.exn "bad json"] =
      Except.error (.pollExn "bad json") ∧
    (∃ c r, runEffects envTimeout = Effect.fsWrite c :: r) :=
  ⟨C9_exception_fallback.2.1 _ _ true (.error "t") rfl,
   C9_exception_fallback.2.2.1 ⟨202, "", some "u"⟩ "bad json" [] rfl
     (by simp),
   C9_exception_fallback.2.2.2 envTimeout [⟨"a.png", true⟩] rfl⟩

/-- Claim C10: the enumerator's filter reads only the entry's name, so
any entry whose name bears an allowed extension — a subdirectory
included — is listed, gets its own numbered section built from its
dispatch text, and when both backends then fail on it that text is an
error message rather than the entry being skipped. -/
theorem C10_suffix_only_filter :
    (∀ (n : String) (f₁ f₂ : Bool),
      includedEntry ⟨n, f₁⟩ = includedEntry ⟨n, f₂⟩) ∧
    (∀ es : List DirEntry, DirEntry.mk "x.png" false ∈ es →
      "x.png" ∈ listFiles es) ∧
    (∀ (env : Env) (es : List DirEntry) (n : String), n ∈ listFiles es →
      ∃ k, (sections env es)[k]? =
        some (pageSection (k + 1) n (env.relOf n) (pageText env n))) ∧
    (∀ (env : Env) n e et, env.readApi = true → env.pytess = true →
      azure_read_image (env.post n) (env.polls n) = .error e →
      env.localOf n = .error et →
      pageText env n =
        "_Error during OCR: Azure error: " ++ e.message ++
          "; Tesseract error: " ++ et ++ "_") := by
  refine ⟨fun n f₁ f₂ => rfl, ?_, ?_, ?_⟩
  · intro es h
    rw [listFiles]
    refine ((List.perm_insertionSort sortRel _).mem_iff).mpr ?_
    exact List.mem_map.mpr ⟨⟨"x.png", false⟩,
      List.mem_filter.mpr ⟨h, by decide⟩, rfl⟩
  · intro env es n hn
    obtain ⟨k, hk, hget⟩ := List.getElem_of_mem hn
    refine ⟨k, ?_⟩
    rw [sections, List.getElem?_map, List.getElem?_enum,
      List.getElem?_eq_getElem hk, hget]
    rfl
  · intro env n e et hR hP hAz hLoc
    rw [pageText, hR, hP, hAz, hLoc]
    rfl

/-- Witness for C10: in `envDir`, whose folder holds a subdirectory
named `x.png`, that entry is listed, owns section 1, and its text is
the combined error message of the two failing backends. -/
theorem C10_witness :
    "x.png" ∈ listFiles [(⟨"x.png", false⟩ : DirEntry)] ∧
    (∃ k, (sections envDir [⟨"x.png", false⟩])[k]? =
      some (pageSection (k + 1) "x.png" (envDir.relOf "x.png")
        (pageText envDir "x.png"))) ∧
    pageText envDir "x.png" =
      "_Error during OCR: Azure error: " ++
        (AzureError.badStatus 404 "nf").message ++
        "; Tesseract error: " ++ "Is a directory" ++ "_" :=
  ⟨C10_suffix_only_filter.2.1 [⟨"x.png", false⟩] (by decide),
   C10_suffix_only_filter.2.2.1 envDir [⟨"x.png", false⟩] "x.png"
     (by decide),
   C10_suffix_only_filter.2.2.2 envDir "x.png" (.badStatus 404 "nf")
     "Is a directory" rfl rfl rfl rfl⟩

end OCR
